import Mathlib

/-
Verification of the mylibs TCP networking facade (src/sockets/network.h)
against its natural-language specification.

The C functions are shallowly embedded as pure Lean functions. Each
interaction with the operating system (getaddrinfo, socket, bind, listen,
accept, connect, send, recv, close) is abstracted: the value the system
call would return is passed in as an explicit environment parameter, and
the calls the function actually performs are recorded, in order, in a
trace. A function result is the triple of the C return value, the trace
of system calls made, and the list of diagnostic lines printed to stdout.
-/

/-- Endpoint descriptor produced by address resolution, mirroring the
fields of struct addrinfo that network.h reads: ai_family, ai_socktype,
ai_protocol, and the byte-level address ai_addr (with ai_addrlen implied
by its length). -/
structure addrinfo where
  ai_family : Nat
  ai_socktype : Nat
  ai_protocol : Nat
  ai_addr : List Nat
  deriving DecidableEq, Repr

/-- A system call performed by one of the network.h functions, with the
arguments that the C source passes to it. getaddrinfo records the host
(none models the NULL host used for the all-interfaces wildcard), the
service string, and whether AI_PASSIVE was set in the hints. -/
inductive Syscall where
  | getaddrinfo (host : Option String) (service : String) (passive : Bool)
  | socket (family : Nat) (socktype : Nat) (protocol : Nat)
  | bind (fd : Int) (addr : List Nat)
  | listen (fd : Int) (backlog : Nat)
  | accept (fd : Int)
  | connect (fd : Int) (addr : List Nat)
  | send (fd : Int) (bytes : List Nat)
  | recv (fd : Int) (cap : Nat)
  | close (fd : Int)
  deriving DecidableEq, Repr

/-- Observable outcome of one call into the library: the C return value
(socket_t, an int), the ordered trace of system calls made, and the
diagnostic lines printed to stdout. -/
structure ExecResult where
  ret : Int
  calls : List Syscall
  msgs : List String
  deriving DecidableEq, Repr

/-- The BACKLOG macro of network.h (line 43): the fixed listen queue
depth. -/
def BACKLOG : Nat := 10

/-- C strlen applied to the bytes held in a buffer: the length of the
longest prefix containing no zero byte. -/
def strlen (s : List Nat) : Nat :=
  (s.takeWhile (fun b => b != 0)).length

/-- Shallow embedding of network_listen (network.h lines 573-610).
resolved is the outcome of getaddrinfo(NULL, port, hints, res) with
AI_PASSIVE hints: some res when resolution produced a descriptor, none
when it produced nothing. socketRet, bindRet and listenRet are the values
the socket, bind and listen system calls would return. The C source never
checks the return value of getaddrinfo; when resolution fails it goes on
to read res.ai_family from the unset res pointer, which is undefined
behavior, modelled here by the result none. -/
def network_listen (port : String) (resolved : Option addrinfo)
    (socketRet : Int) (bindRet : Int) (listenRet : Int) : Option ExecResult :=
  match resolved with
  | none => none
  | some res =>
    let pre := [Syscall.getaddrinfo none port true,
                Syscall.socket res.ai_family res.ai_socktype res.ai_protocol]
    if socketRet < 0 then
      some ⟨-1, pre, ["Socket creation failed at Listen API.\n"]⟩
    else if bindRet < 0 then
      some ⟨-1, pre ++ [Syscall.bind socketRet res.ai_addr, Syscall.close socketRet],
            ["Bind has failed!\n"]⟩
    else if listenRet < 0 then
      some ⟨-1, pre ++ [Syscall.bind socketRet res.ai_addr,
                        Syscall.listen socketRet BACKLOG, Syscall.close socketRet],
            ["Listen has failed!\n"]⟩
    else
      some ⟨socketRet, pre ++ [Syscall.bind socketRet res.ai_addr,
                               Syscall.listen socketRet BACKLOG], []⟩

/-- Shallow embedding of network_listen_on (network.h lines 612-649).
Identical to network_listen except that getaddrinfo is called with the
given specific ip as host instead of NULL. The unchecked getaddrinfo and
the undefined behavior on resolution failure are the same. -/
def network_listen_on (ip : String) (port : String) (resolved : Option addrinfo)
    (socketRet : Int) (bindRet : Int) (listenRet : Int) : Option ExecResult :=
  match resolved with
  | none => none
  | some res =>
    let pre := [Syscall.getaddrinfo (some ip) port true,
                Syscall.socket res.ai_family res.ai_socktype res.ai_protocol]
    if socketRet < 0 then
      some ⟨-1, pre, ["Socket creation failed at Listen API.\n"]⟩
    else if bindRet < 0 then
      some ⟨-1, pre ++ [Syscall.bind socketRet res.ai_addr, Syscall.close socketRet],
            ["Bind has failed!\n"]⟩
    else if listenRet < 0 then
      some ⟨-1, pre ++ [Syscall.bind socketRet res.ai_addr,
                        Syscall.listen socketRet BACKLOG, Syscall.close socketRet],
            ["Listen has failed!\n"]⟩
    else
      some ⟨socketRet, pre ++ [Syscall.bind socketRet res.ai_addr,
                               Syscall.listen socketRet BACKLOG], []⟩

/-- Shallow embedding of network_accept (network.h lines 651-669).
client_storage is true when the sockaddr_storage pointer is non-NULL;
acceptRet is the value the accept system call would return. -/
def network_accept (socktfd : Int) (client_storage : Bool) (acceptRet : Int) : ExecResult :=
  if socktfd < 0 then
    ⟨-1, [], ["socket file descriptor is NULL.\n"]⟩
  else if client_storage = false then
    ⟨-1, [], ["Address is NULL.\n"]⟩
  else if acceptRet < 0 then
    ⟨-1, [Syscall.accept socktfd], ["Accept has failed.\n"]⟩
  else
    ⟨acceptRet, [Syscall.accept socktfd], ["Client connected.\n"]⟩

/-- Shallow embedding of network_connect (network.h lines 671-692).
server_address is the addrinfo pointer (none models NULL); socketRet and
connectRet are the values the socket and connect system calls would
return. The C source tests connect against 0, so any nonzero connectRet
takes the failure branch. -/
def network_connect (server_address : Option addrinfo)
    (socketRet : Int) (connectRet : Int) : ExecResult :=
  match server_address with
  | none => ⟨-1, [], ["Address is NULL.\n"]⟩
  | some res =>
    if socketRet < 0 then
      ⟨-1, [Syscall.socket res.ai_family res.ai_socktype res.ai_protocol],
       ["Socket creation failed.\n"]⟩
    else if connectRet = 0 then
      ⟨socketRet, [Syscall.socket res.ai_family res.ai_socktype res.ai_protocol,
                   Syscall.connect socketRet res.ai_addr],
       ["Socket successfully connected.\n"]⟩
    else
      ⟨-1, [Syscall.socket res.ai_family res.ai_socktype res.ai_protocol,
            Syscall.connect socketRet res.ai_addr, Syscall.close socketRet],
       ["Connection failed. %s\n"]⟩

/-- Shallow embedding of network_send (network.h lines 694-717). data is
the contents of the buffer the data pointer points at (none models a NULL
pointer); the source computes strlen(data) and offers exactly that prefix
to the send system call. sendRet is the value send would return. -/
def network_send (socketfd : Int) (data : Option (List Nat)) (sendRet : Int) : ExecResult :=
  if socketfd < 0 then
    ⟨-1, [], ["Invalid socket descriptor: %d\n"]⟩
  else
    match data with
    | none => ⟨-1, [], ["Data pointer is NULL\n"]⟩
    | some bytes =>
      if strlen bytes = 0 then
        ⟨0, [], ["Attempting to send empty string\n"]⟩
      else if sendRet < 0 then
        ⟨-1, [Syscall.send socketfd (bytes.takeWhile (fun b => b != 0))],
         ["send failed.\n"]⟩
      else
        ⟨sendRet, [Syscall.send socketfd (bytes.takeWhile (fun b => b != 0))], []⟩

/-- Shallow embedding of network_recv (network.h lines 719-741). data is
true when the buffer pointer is non-NULL; buffer_size is the capacity;
recvRet is the value the recv system call would return. -/
def network_recv (socketfd : Int) (data : Bool) (buffer_size : Nat) (recvRet : Int) : ExecResult :=
  if socketfd < 0 then
    ⟨-1, [], ["Invalid socket descriptor: %d\n"]⟩
  else if data = false then
    ⟨-1, [], ["Buffer pointer is NULL, no place to put the data\n"]⟩
  else if buffer_size = 0 then
    ⟨-1, [], ["Buffer size is zero, no space for data insertion.\n"]⟩
  else if recvRet < 0 then
    ⟨-1, [Syscall.recv socketfd buffer_size], ["recv failed. %s\n"]⟩
  else
    ⟨recvRet, [Syscall.recv socketfd buffer_size], []⟩

/-- Shallow embedding of network_close (network.h lines 744-746): it
performs the close system call unconditionally, with no guard on the
handle value and no return value (ret is fixed at 0). -/
def network_close (socket : Int) : ExecResult :=
  ⟨0, [Syscall.close socket], []⟩

/-- The network_result enumeration (network.h lines 52-63). -/
inductive network_result where
  | NETWORK_SUCCESS
  | SOCKET_CREATE_FAILED
  | SOCKET_BIND_FAILED
  | SOCKET_LISTEN_FAILED
  | SOCKET_ACCEPT_FAILED
  | SOCKET_CONNECT_FAILED
  | SOCKET_INVALID
  | SOCKET_UNKNOWN_ERROR
  deriving DecidableEq, Repr

/-- The integer value each network_result enumerator has in C (the enum
starts at NETWORK_SUCCESS = 0 and counts up). -/
def network_result.toInt : network_result → Int
  | .NETWORK_SUCCESS => 0
  | .SOCKET_CREATE_FAILED => 1
  | .SOCKET_BIND_FAILED => 2
  | .SOCKET_LISTEN_FAILED => 3
  | .SOCKET_ACCEPT_FAILED => 4
  | .SOCKET_CONNECT_FAILED => 5
  | .SOCKET_INVALID => 6
  | .SOCKET_UNKNOWN_ERROR => 7

/-- The integer values of all eight network_result enumerators. -/
def taxonomyCodes : List Int :=
  [network_result.NETWORK_SUCCESS.toInt,
   network_result.SOCKET_CREATE_FAILED.toInt,
   network_result.SOCKET_BIND_FAILED.toInt,
   network_result.SOCKET_LISTEN_FAILED.toInt,
   network_result.SOCKET_ACCEPT_FAILED.toInt,
   network_result.SOCKET_CONNECT_FAILED.toInt,
   network_result.SOCKET_INVALID.toInt,
   network_result.SOCKET_UNKNOWN_ERROR.toInt]

/-- A ready event reported by the multiplexer wait operation: the socket
handle and the observed event mask. -/
structure ReadyEvent where
  handle : Int
  events : Nat
  deriving DecidableEq, Repr

/-- Modelled from the spec: the repository sources contain no readiness
multiplexer implementation (network.h is the whole networking code and
has no epoll-style facility), so mux_wait is modelled from spec section
4.4. registered lists the registrations as pairs of socket handle and
interest mask; readiness gives the events currently observable on each
handle. The wait returns, for each registered handle whose observed
events intersect its interest mask, a ready event carrying that
intersection, truncated to at most maxEvents entries. timeoutMillis only
governs how long the call may block, which a pure model does not
represent; the returned value does not depend on it. -/
def mux_wait (registered : List (Int × Nat)) (readiness : Int → Nat)
    (maxEvents : Nat) (timeoutMillis : Int) : List ReadyEvent :=
  let _ := timeoutMillis
  (registered.filterMap (fun p =>
      if readiness p.1 &&& p.2 != 0 then
        some ⟨p.1, readiness p.1 &&& p.2⟩
      else
        none)).take maxEvents

/-- C1: evaluation of the code at an input whose resolution produces no
endpoint descriptor. network_listen and network_listen_on never check the
return value of getaddrinfo; when resolution fails they dereference the
unset res pointer, reaching undefined behavior (modelled as none) instead
of returning a ResolutionFailed error before the socket call. -/
theorem network_listen_unresolved_is_undefined :
    network_listen "no-such-service-xyz" none 0 0 0 = none ∧
    network_listen_on "no.such.host.invalid" "80" none 0 0 0 = none := by
  constructor <;> rfl

/-- C5: for a valid handle, a non-NULL buffer and a positive capacity,
network_recv makes exactly one recv system call, returns 0 exactly when
the transport reported 0 (orderly peer shutdown, never turned into a
negative result), and returns the error value -1 exactly when the
transport read failed. -/
theorem network_recv_shutdown_vs_error (fd : Int) (h : 0 ≤ fd)
    (cap : Nat) (hcap : 0 < cap) (recvRet : Int) :
    ((network_recv fd true cap recvRet).ret = 0 ↔ recvRet = 0) ∧
    ((network_recv fd true cap recvRet).ret = -1 ↔ recvRet < 0) ∧
    (network_recv fd true cap recvRet).calls = [Syscall.recv fd cap] := by
  have hfd : ¬ fd < 0 := not_lt.mpr h
  have hc : ¬ cap = 0 := by omega
  by_cases hr : recvRet < 0
  · rw [show network_recv fd true cap recvRet
          = ⟨-1, [Syscall.recv fd cap], ["recv failed. %s\n"]⟩ by
        simp [network_recv, hfd, hc, hr]]
    refine ⟨?_, ?_, rfl⟩
    · show (-1 : Int) = 0 ↔ recvRet = 0
      constructor <;> intro h0 <;> omega
    · show (-1 : Int) = -1 ↔ recvRet < 0
      exact ⟨fun _ => hr, fun _ => rfl⟩
  · rw [show network_recv fd true cap recvRet
          = ⟨recvRet, [Syscall.recv fd cap], []⟩ by
        simp [network_recv, hfd, hc, hr]]
    refine ⟨Iff.rfl, ?_, rfl⟩
    show recvRet = -1 ↔ recvRet < 0
    constructor <;> intro h0 <;> omega

/-- Witness for C5: at handle 3, capacity 4 and a transport result of 0,
network_recv returns 0 after one recv system call. -/
theorem network_recv_shutdown_vs_error_witness :
    ((network_recv 3 true 4 0).ret = 0 ↔ (0 : Int) = 0) ∧
    ((network_recv 3 true 4 0).ret = -1 ↔ (0 : Int) < 0) ∧
    (network_recv 3 true 4 0).calls = [Syscall.recv 3 4] :=
  network_recv_shutdown_vs_error 3 (by norm_num) 4 (by norm_num) 0

/-- C7: for a valid handle, network_send on the empty byte sequence
returns 0 and makes no system call, whatever the transport would have
returned. -/
theorem network_send_empty_no_transport (fd : Int) (h : 0 ≤ fd) (sendRet : Int) :
    (network_send fd (some []) sendRet).ret = 0 ∧
    (network_send fd (some []) sendRet).calls = [] := by
  simp [network_send, strlen, not_lt.mpr h]

/-- Witness for C7: at handle 3 the empty sequence returns 0 without a
transport call. -/
theorem network_send_empty_no_transport_witness :
    (network_send 3 (some []) 5).ret = 0 ∧
    (network_send 3 (some []) 5).calls = [] :=
  network_send_empty_no_transport 3 (by norm_num) 5

/-- C8: for a valid handle and a non-NULL buffer, network_recv with
capacity 0 returns -1 through the dedicated invalid-argument branch (its
own diagnostic) with no system call made, whatever the transport would
have returned. -/
theorem network_recv_capacity_zero (fd : Int) (h : 0 ≤ fd) (recvRet : Int) :
    network_recv fd true 0 recvRet =
      ⟨-1, [], ["Buffer size is zero, no space for data insertion.\n"]⟩ := by
  simp [network_recv, not_lt.mpr h]

/-- Witness for C8: at handle 3 a zero capacity is rejected before any
system call. -/
theorem network_recv_capacity_zero_witness :
    network_recv 3 true 0 7 =
      ⟨-1, [], ["Buffer size is zero, no space for data insertion.\n"]⟩ :=
  network_recv_capacity_zero 3 (by norm_num) 7

/-- C10: for a non-negative listening handle, network_accept with a NULL
client-address storage pointer returns -1 immediately and makes no accept
system call, whatever accept would have returned. -/
theorem network_accept_null_storage_rejected (fd : Int) (h : 0 ≤ fd) (acceptRet : Int) :
    (network_accept fd false acceptRet).ret = -1 ∧
    (network_accept fd false acceptRet).calls = [] := by
  simp [network_accept, not_lt.mpr h]

/-- Witness for C10: at listening handle 3 a NULL storage pointer is
rejected with no system call. -/
theorem network_accept_null_storage_rejected_witness :
    (network_accept 3 false 9).ret = -1 ∧
    (network_accept 3 false 9).calls = [] :=
  network_accept_null_storage_rejected 3 (by norm_num) 9

/-- Counterexample for C4: network_send does not offer the full input to
the transport. At handle 3 with input bytes 65, 0, 66 the transport is
offered only the single byte 65: everything at and after the embedded
zero byte is dropped by the strlen call of the source. -/
theorem network_send_truncates_at_zero_byte :
    (network_send 3 (some [65, 0, 66]) 1).calls = [Syscall.send 3 [65]] ∧
    ([65] : List Nat) ≠ [65, 0, 66] := by
  constructor
  · rfl
  · decide

/-- C4 (amended): for a valid handle and a non-NULL buffer whose contents
have nonzero strlen, network_send offers to the transport exactly the
longest zero-free prefix of the buffer contents (strlen semantics: bytes
at and after an embedded zero byte are not offered), and returns whatever
count of bytes the transport accepted, which may be less than the number
offered. -/
theorem network_send_strlen_semantics (fd : Int) (h : 0 ≤ fd)
    (bytes : List Nat) (hb : strlen bytes ≠ 0) (sendRet : Int) (hs : 0 ≤ sendRet) :
    (network_send fd (some bytes) sendRet).calls
        = [Syscall.send fd (bytes.takeWhile (fun b => b != 0))] ∧
    (network_send fd (some bytes) sendRet).ret = sendRet := by
  have hfd : ¬ fd < 0 := not_lt.mpr h
  have hsr : ¬ sendRet < 0 := not_lt.mpr hs
  rw [show network_send fd (some bytes) sendRet
        = ⟨sendRet, [Syscall.send fd (bytes.takeWhile (fun b => b != 0))], []⟩ by
      simp [network_send, hfd, hb, hsr]]
  exact ⟨rfl, rfl⟩

/-- Witness for C4 (amended): at handle 3 with the three nonzero bytes
72, 105, 33 and a transport that accepted only 1 byte, the send call
offers the whole input and the return value is the accepted count 1. -/
theorem network_send_strlen_semantics_witness :
    (network_send 3 (some [72, 105, 33]) 1).calls
        = [Syscall.send 3 ([72, 105, 33].takeWhile (fun b => b != 0))] ∧
    (network_send 3 (some [72, 105, 33]) 1).ret = 1 :=
  network_send_strlen_semantics 3 (by norm_num) [72, 105, 33] (by decide) 1 (by norm_num)

/-- Counterexample for C3: network_close does not fail immediately
without a system call on a negative handle: at handle -1 it performs the
close system call on that handle. -/
theorem network_close_negative_makes_syscall :
    (network_close (-1)).calls ≠ [] := by
  decide

/-- C3 (amended): for every negative handle value, network_accept,
network_send and network_recv fail immediately, returning -1 and making
no system call; network_close, however, has no guard and performs the
close system call unconditionally, even on a negative handle. -/
theorem negative_handle_guards (fd : Int) (h : fd < 0)
    (client_storage : Bool) (acceptRet : Int) (data : Option (List Nat)) (sendRet : Int)
    (buf : Bool) (cap : Nat) (recvRet : Int) :
    (network_accept fd client_storage acceptRet).ret = -1 ∧
    (network_accept fd client_storage acceptRet).calls = [] ∧
    (network_send fd data sendRet).ret = -1 ∧
    (network_send fd data sendRet).calls = [] ∧
    (network_recv fd buf cap recvRet).ret = -1 ∧
    (network_recv fd buf cap recvRet).calls = [] ∧
    (network_close fd).calls = [Syscall.close fd] := by
  refine ⟨?_, ?_, ?_, ?_, ?_, ?_, rfl⟩ <;>
    simp [network_accept, network_send, network_recv, h]

/-- Witness for C3 (amended): at handle -1 the three guarded operations
reject without a system call and network_close still closes. -/
theorem negative_handle_guards_witness :
    (network_accept (-1) true 0).ret = -1 ∧
    (network_accept (-1) true 0).calls = [] ∧
    (network_send (-1) (some [65]) 0).ret = -1 ∧
    (network_send (-1) (some [65]) 0).calls = [] ∧
    (network_recv (-1) true 8 0).ret = -1 ∧
    (network_recv (-1) true 8 0).calls = [] ∧
    (network_close (-1)).calls = [Syscall.close (-1)] :=
  negative_handle_guards (-1) (by norm_num) true 0 (some [65]) 0 true 8 0

/-- C6: for every service whose resolution produces a descriptor,
network_listen resolves with a NULL host and AI_PASSIVE (all interfaces),
creates the socket, binds it to the resolved address, and starts
listening with the BACKLOG constant, which equals 10; it takes the
creation-failed branch exactly when the socket call fails, the
bind-failed branch exactly when bind fails, and the listen-failed branch
exactly when listen fails, returning -1 from each. -/
theorem network_listen_backlog_and_failures (port : String) (res : addrinfo)
    (s b l : Int) :
    BACKLOG = 10 ∧
    (0 ≤ s → 0 ≤ b → 0 ≤ l →
      network_listen port (some res) s b l =
        some ⟨s, [Syscall.getaddrinfo none port true,
                  Syscall.socket res.ai_family res.ai_socktype res.ai_protocol,
                  Syscall.bind s res.ai_addr, Syscall.listen s BACKLOG], []⟩) ∧
    (s < 0 →
      network_listen port (some res) s b l =
        some ⟨-1, [Syscall.getaddrinfo none port true,
                   Syscall.socket res.ai_family res.ai_socktype res.ai_protocol],
              ["Socket creation failed at Listen API.\n"]⟩) ∧
    (0 ≤ s → b < 0 →
      network_listen port (some res) s b l =
        some ⟨-1, [Syscall.getaddrinfo none port true,
                   Syscall.socket res.ai_family res.ai_socktype res.ai_protocol,
                   Syscall.bind s res.ai_addr, Syscall.close s],
              ["Bind has failed!\n"]⟩) ∧
    (0 ≤ s → 0 ≤ b → l < 0 →
      network_listen port (some res) s b l =
        some ⟨-1, [Syscall.getaddrinfo none port true,
                   Syscall.socket res.ai_family res.ai_socktype res.ai_protocol,
                   Syscall.bind s res.ai_addr, Syscall.listen s BACKLOG,
                   Syscall.close s],
              ["Listen has failed!\n"]⟩) := by
  refine ⟨rfl, ?_, ?_, ?_, ?_⟩
  · intro hs hb hl
    simp [network_listen, not_lt.mpr hs, not_lt.mpr hb, not_lt.mpr hl]
  · intro hs
    simp [network_listen, hs]
  · intro hs hb
    simp [network_listen, not_lt.mpr hs, hb]
  · intro hs hb hl
    simp [network_listen, not_lt.mpr hs, not_lt.mpr hb, hl]

/-- Witness for C6: with a concrete IPv4 descriptor and all three system
calls succeeding (socket returning handle 3), network_listen returns
handle 3 after resolving with a NULL host, binding, and listening with
backlog BACKLOG = 10. -/
theorem network_listen_backlog_and_failures_witness :
    BACKLOG = 10 ∧
    network_listen "8080" (some ⟨2, 1, 6, [0, 0, 0, 0]⟩) 3 0 0 =
      some ⟨3, [Syscall.getaddrinfo none "8080" true,
                Syscall.socket 2 1 6,
                Syscall.bind 3 [0, 0, 0, 0], Syscall.listen 3 BACKLOG], []⟩ :=
  ⟨(network_listen_backlog_and_failures "8080" ⟨2, 1, 6, [0, 0, 0, 0]⟩ 3 0 0).1,
   (network_listen_backlog_and_failures "8080" ⟨2, 1, 6, [0, 0, 0, 0]⟩ 3 0 0).2.1
     (by norm_num) (by norm_num) (by norm_num)⟩

/-- Counterexample for C2: a failing operation does not return a Result
Code drawn from the network_result taxonomy. At the valid listening
handle 5 with the accept system call failing, network_accept reports the
failure by returning -1, and -1 is not the value of any network_result
enumerator. -/
theorem network_failure_code_not_in_taxonomy :
    (network_accept 5 true (-1)).ret = -1 ∧
    taxonomyCodes.contains (-1) = false := by
  constructor
  · rfl
  · decide

/-- C2 (amended): every fallible public operation reports each failure by
returning the single sentinel value -1, which is not a member of the
network_result taxonomy (the taxonomy is declared but never returned by
these operations); on every failing path a diagnostic line is also
printed, but the -1 return value is always present, so the diagnostic is
never the sole error signal. Which failure kind occurred is
distinguishable only by the diagnostic text. -/
theorem network_failures_return_sentinel :
    taxonomyCodes.contains (-1) = false ∧
    (∀ port resolved s b l r, network_listen port resolved s b l = some r →
        r.ret < 0 → r.ret = -1 ∧ r.msgs ≠ []) ∧
    (∀ ip port resolved s b l r, network_listen_on ip port resolved s b l = some r →
        r.ret < 0 → r.ret = -1 ∧ r.msgs ≠ []) ∧
    (∀ fd cs a, (network_accept fd cs a).ret < 0 →
        (network_accept fd cs a).ret = -1 ∧ (network_accept fd cs a).msgs ≠ []) ∧
    (∀ sa s c, (network_connect sa s c).ret < 0 →
        (network_connect sa s c).ret = -1 ∧ (network_connect sa s c).msgs ≠ []) ∧
    (∀ fd d s, (network_send fd d s).ret < 0 →
        (network_send fd d s).ret = -1 ∧ (network_send fd d s).msgs ≠ []) ∧
    (∀ fd bv cap rr, (network_recv fd bv cap rr).ret < 0 →
        (network_recv fd bv cap rr).ret = -1 ∧ (network_recv fd bv cap rr).msgs ≠ []) := by
  refine ⟨by decide, ?_, ?_, ?_, ?_, ?_, ?_⟩
  · intro port resolved s b l r hsome hneg
    cases resolved with
    | none => exact absurd hsome (by simp [network_listen])
    | some res =>
      unfold network_listen at hsome
      simp only [] at hsome
      split at hsome
      · cases Option.some.inj hsome
        exact ⟨rfl, by simp⟩
      · split at hsome
        · cases Option.some.inj hsome
          exact ⟨rfl, by simp⟩
        · split at hsome
          · cases Option.some.inj hsome
            exact ⟨rfl, by simp⟩
          · cases Option.some.inj hsome
            exact absurd hneg (by simp; omega)
  · intro ip port resolved s b l r hsome hneg
    cases resolved with
    | none => exact absurd hsome (by simp [network_listen_on])
    | some res =>
      unfold network_listen_on at hsome
      simp only [] at hsome
      split at hsome
      · cases Option.some.inj hsome
        exact ⟨rfl, by simp⟩
      · split at hsome
        · cases Option.some.inj hsome
          exact ⟨rfl, by simp⟩
        · split at hsome
          · cases Option.some.inj hsome
            exact ⟨rfl, by simp⟩
          · cases Option.some.inj hsome
            exact absurd hneg (by simp; omega)
  · intro fd cs a
    unfold network_accept
    split
    · exact fun _ => ⟨rfl, by simp⟩
    · split
      · exact fun _ => ⟨rfl, by simp⟩
      · split
        · exact fun _ => ⟨rfl, by simp⟩
        · intro hneg
          exact absurd hneg (by simp; omega)
  · intro sa s c
    cases sa with
    | none => exact fun _ => ⟨rfl, by simp [network_connect]⟩
    | some res =>
      unfold network_connect
      simp only []
      split
      · exact fun _ => ⟨rfl, by simp⟩
      · split
        · intro hneg
          exact absurd hneg (by simp; omega)
        · exact fun _ => ⟨rfl, by simp⟩
  · intro fd d s
    unfold network_send
    split
    · exact fun _ => ⟨rfl, by simp⟩
    · cases d with
      | none => exact fun _ => ⟨rfl, by simp⟩
      | some bytes =>
        simp only []
        split
        · intro hneg
          exact absurd hneg (by simp)
        · split
          · exact fun _ => ⟨rfl, by simp⟩
          · intro hneg
            exact absurd hneg (by simp; omega)
  · intro fd bv cap rr
    unfold network_recv
    split
    · exact fun _ => ⟨rfl, by simp⟩
    · split
      · exact fun _ => ⟨rfl, by simp⟩
      · split
        · exact fun _ => ⟨rfl, by simp⟩
        · split
          · exact fun _ => ⟨rfl, by simp⟩
          · intro hneg
            exact absurd hneg (by simp; omega)

/-- Witness for C2 (amended): at handle 5 with the accept system call
failing, network_accept returns the sentinel -1 and also prints a
diagnostic. -/
theorem network_failures_return_sentinel_witness :
    (network_accept 5 true (-1)).ret = -1 ∧
    (network_accept 5 true (-1)).msgs ≠ [] :=
  network_failures_return_sentinel.2.2.2.1 5 true (-1) (by decide)

/-- C9: the multiplexer wait, modelled from the spec, returns the empty
sequence when called with timeout 0 while no registered handle has
observable events intersecting its interest mask, and the returned
sequence never exceeds maxEvents entries, for every timeout. -/
theorem mux_wait_poll_bounds (registered : List (Int × Nat)) (readiness : Int → Nat)
    (maxEvents : Nat) (timeoutMillis : Int) :
    ((∀ p ∈ registered, readiness p.1 &&& p.2 = 0) →
      mux_wait registered readiness maxEvents 0 = []) ∧
    (mux_wait registered readiness maxEvents timeoutMillis).length ≤ maxEvents := by
  constructor
  · intro hall
    unfold mux_wait
    simp only []
    rw [List.filterMap_eq_nil_iff.mpr ?_]
    · exact List.take_nil
    · intro p hp
      simp [hall p hp]
  · unfold mux_wait
    simp only []
    exact List.length_take_le maxEvents _

/-- Witness for C9: with one registered handle whose observed events are
all zero, a wait with timeout 0 and room for 8 events returns the empty
sequence, whose length is within the bound. -/
theorem mux_wait_poll_bounds_witness :
    mux_wait [(3, 1)] (fun _ => 0) 8 0 = [] ∧
    (mux_wait [(3, 1)] (fun _ => 0) 8 0).length ≤ 8 :=
  ⟨(mux_wait_poll_bounds [(3, 1)] (fun _ => 0) 8 0).1 (fun p _ => by simp),
   (mux_wait_poll_bounds [(3, 1)] (fun _ => 0) 8 0).2⟩
